import Mathlib

/-
Verification of the minimart order-fulfillment core (Go) against its
natural-language specification.

Shallow embedding conventions:
* Go `int64` / `int` values are modeled as `Int`; every arithmetic step whose
  Go counterpart can overflow goes through `wrap64`, which reduces modulo 2^64
  into the signed 64-bit range (Go's defined wrap-around semantics).
* `time.Time` and `time.Duration` are modeled as `Int` nanoseconds.  A call to
  `time.Now()` inside a method is modeled by an explicit `now : Int` argument
  (one instant per method call; the sub-nanosecond spacing of several
  `time.Now()` calls inside one method is irrelevant to every claim).
* `uuid.UUID` is an opaque identifier with decidable equality; `uuid.Nil` is
  `UUID.nil`; a call to `uuid.New()` is modeled by an explicit argument.
* Fallible Go functions return `Except`; a Go panic (cross-currency `Money`
  arithmetic) is modeled by an outer `Option` layer (`none` = panic).
* `float64` values are modeled exactly: a binary64 number is represented by a
  dyadic pair (mantissa, exponent) whose value is `m * 2^e`, and rounding is
  IEEE round-to-nearest, ties-to-even, restricted to the normal non-overflow
  range (every float reachable in `Money.String` lies well inside it).
-/

set_option maxRecDepth 100000

namespace Minimart

/-- Signed 64-bit wrap-around: the unique value in [-2^63, 2^63) congruent to
`x` mod 2^64. Models Go's int64/int overflow semantics. -/
def wrap64 (x : Int) : Int :=
  (x + 9223372036854775808) % 18446744073709551616 - 9223372036854775808

/-- Model of `uuid.UUID`: an opaque identifier with decidable equality. -/
structure UUID where
  val : Nat
deriving DecidableEq, Repr

/-- Model of `uuid.Nil`, the zero UUID. -/
def UUID.nil : UUID := ⟨0⟩

/-- Model of `type DeliveryMethod int` (part_016). Go allows arbitrary int
values of this type, so the model keeps the full `Int` carrier. -/
abbrev DeliveryMethod := Int

def DeliveryMethodPickup : DeliveryMethod := 0

def DeliveryMethodDelivery : DeliveryMethod := 1

/-- Model of `DeliveryMethod.IsValid` (part_016). -/
def DeliveryMethod.IsValid (d : DeliveryMethod) : Bool :=
  d == DeliveryMethodPickup || d == DeliveryMethodDelivery

/-- Model of `Money` (part_016): an int64 amount in satoshis plus a currency
tag. -/
structure Money where
  amount : Int
  currency : String
deriving DecidableEq, Repr

/-- Model of `NewMoney` (part_016). The argument is an int64 value. -/
def NewMoney (amountInSatoshis : Int) : Money :=
  { amount := amountInSatoshis, currency := "BTC" }

/-- Model of `Money.Amount`. -/
def Money.Amount (m : Money) : Int := m.amount

/-- Model of `Money.Currency`. -/
def Money.Currency (m : Money) : String := m.currency

/-- Model of `Money.Add` (part_016). Go panics when the currencies differ;
the panic is modeled as `none`. Addition of int64 amounts wraps. -/
def Money.Add (m other : Money) : Option Money :=
  if m.currency ≠ other.currency then none
  else some { amount := wrap64 (m.amount + other.amount), currency := m.currency }

/-- Model of `Money.Subtract` (part_016); panic on currency mismatch is
`none`. -/
def Money.Subtract (m other : Money) : Option Money :=
  if m.currency ≠ other.currency then none
  else some { amount := wrap64 (m.amount - other.amount), currency := m.currency }

/-- Model of `Money.Multiply` (part_016): `amount * int64(quantity)` with
int64 wrap-around. -/
def Money.Multiply (m : Money) (quantity : Int) : Money :=
  { amount := wrap64 (m.amount * quantity), currency := m.currency }

/-- Model of `Money.IsPositive`. -/
def Money.IsPositive (m : Money) : Bool := m.amount > 0

/-- Model of `Money.IsZero`. -/
def Money.IsZero (m : Money) : Bool := m.amount == 0

/-- Model of `Money.IsNegative`. -/
def Money.IsNegative (m : Money) : Bool := m.amount < 0

/-- Model of `Money.Equals`. -/
def Money.Equals (m other : Money) : Bool :=
  m.amount == other.amount && m.currency == other.currency

/-- Floor of log2 of a positive natural number, by structural recursion on a
fuel argument (the kernel reduces this on literals, unlike `Nat.log2`). -/
def natLog2Aux : Nat → Nat → Nat
  | 0, _ => 0
  | fuel + 1, n => if n ≤ 1 then 0 else 1 + natLog2Aux fuel (n / 2)

/-- Floor of log2 of a positive natural number (0 for 0 and 1). -/
def natLog2 (n : Nat) : Nat := natLog2Aux n n

/-- Rounding of the rational `a / b` (with `b > 0`) to the nearest natural
number, ties to even: the rounding used both by IEEE-754 binary64 operations
and by Go's fixed-precision decimal formatting in `strconv`. -/
def roundNatHalfEven (a b : Nat) : Nat :=
  let q := a / b
  let r := a % b
  if 2 * r < b then q else if b < 2 * r then q + 1 else if q % 2 = 0 then q else q + 1

/-- Floor of log2 of the positive rational `a / b`. -/
def fracLog2 (a b : Nat) : Int :=
  let cand : Int := (natLog2 a : Int) - (natLog2 b : Int)
  -- floor log2 (a/b) is cand or cand - 1; test whether 2^cand ≤ a/b.
  if 0 ≤ cand then
    (if b * 2 ^ cand.toNat ≤ a then cand else cand - 1)
  else
    (if b ≤ a * 2 ^ (-cand).toNat then cand else cand - 1)

/-- Rounding of the positive rational `a / b` to the nearest binary64 float
(round to nearest, ties to even), returned as a dyadic pair (mantissa,
exponent) with value `mantissa * 2 ^ exponent`. Valid on the normal,
non-overflowing range of binary64, which contains every value reachable in
this program. -/
def roundFloatPos (a b : Nat) : Nat × Int :=
  let e := fracLog2 a b
  let k : Int := 52 - e
  -- mantissa = round-half-even of (a/b) * 2^k
  if 0 ≤ k then
    (roundNatHalfEven (a * 2 ^ k.toNat) b, e - 52)
  else
    (roundNatHalfEven a (b * 2 ^ (-k).toNat), e - 52)

/-- Value of `float64(a) / divisor` for a positive int64 `a` and a positive
power-of-ten divisor that is exactly representable in binary64 (both 10^8 and
10^5 are): first the int64-to-float64 conversion rounds `a`, then the IEEE
division rounds the exact quotient. Result is a dyadic pair (mantissa,
exponent). -/
def floatDivPos (a : Nat) (divisor : Nat) : Nat × Int :=
  let x := roundFloatPos a 1
  let m := x.1
  let e := x.2
  if 0 ≤ e then roundFloatPos (m * 2 ^ e.toNat) divisor
  else roundFloatPos m (divisor * 2 ^ (-e).toNat)

/-- Left-padding with zeros, used for the fractional digits of a fixed-point
rendering. -/
def padZeros (s : String) (len : Nat) : String :=
  String.mk (List.replicate (len - s.length) '0') ++ s

/-- Fixed-precision decimal rendering of the nonnegative binary64 value
`m * 2 ^ e`: the model of Go's `fmt.Sprintf` with verb `%.<prec>f`, which
prints the exact decimal value of the binary float rounded to `prec` digits,
ties to even. -/
def fmtDyadicFixed (m : Nat) (e : Int) (prec : Nat) : String :=
  let scaledNum := m * 10 ^ prec
  let n := if 0 ≤ e then scaledNum * 2 ^ e.toNat else roundNatHalfEven scaledNum (2 ^ (-e).toNat)
  let ip := n / 10 ^ prec
  let fp := n % 10 ^ prec
  toString ip ++ "." ++ padZeros (toString fp) prec

/-- Model of `Money.String` (part_016):
`a ≥ 10_000_000` renders `float64(a)/100_000_000` as `%.8f BTC`;
`100_000 ≤ a < 10_000_000` renders `float64(a)/100_000` as `%.3f mBTC`;
otherwise `%d sats`. In the first two branches the amount is positive. -/
def Money.String (m : Money) : String :=
  if m.amount ≥ 10000000 then
    fmtDyadicFixed (floatDivPos m.amount.toNat 100000000).1 (floatDivPos m.amount.toNat 100000000).2 8 ++ " BTC"
  else if m.amount ≥ 100000 then
    fmtDyadicFixed (floatDivPos m.amount.toNat 100000).1 (floatDivPos m.amount.toNat 100000).2 3 ++ " mBTC"
  else
    toString m.amount ++ " sats"

/-- Character class trimmed by Go's `strings.TrimSpace` (Unicode White_Space);
listed here up to the Latin-1 range, which covers all inputs appearing in the
claims and tests. -/
def isGoSpace (c : Char) : Bool :=
  c = ' ' || c = '\t' || c = '\n' || c = '\x0b' || c = '\x0c' || c = '\r' ||
  c = '\x85' || c = '\xa0'

/-- Model of `strings.TrimSpace`: drop leading and trailing white space. -/
def trimSpace (s : String) : String :=
  String.mk (((s.data.dropWhile isGoSpace).reverse.dropWhile isGoSpace).reverse)

/-- Model of `Address` (part_016). -/
structure Address where
  street : String
  city : String
  state : String
  postalCode : String
  country : String
  unit : String
deriving DecidableEq, Repr

/-- Model of `NewAddress` (part_016). Note that the source validates each
field against the empty string BEFORE trimming, and stores trimmed fields. -/
def NewAddress (street city state postalCode country : String) :
    Except String Address :=
  if street = "" then Except.error "street is required"
  else if city = "" then Except.error "city is required"
  else if state = "" then Except.error "state is required"
  else if postalCode = "" then Except.error "postal code is required"
  else
    let country := if country = "" then "USA" else country
    Except.ok
      { street := trimSpace street
        city := trimSpace city
        state := trimSpace state
        postalCode := trimSpace postalCode
        country := trimSpace country
        unit := "" }

/-- Model of `TimeWindow` (part_016): start and end instants in nanoseconds. -/
structure TimeWindow where
  StartTime : Int
  EndTime : Int
deriving DecidableEq, Repr

/-- Nanoseconds of `time.Minute`. -/
def timeMinute : Int := 60000000000

/-- Model of `NewTimeWindow` (part_016). `bufferMinutes := estimatedMinutes/10`
uses Go integer division (truncation toward zero) and is raised to at least 5;
`time.Duration(minutes) * time.Minute` is int64 multiplication and wraps;
`time.Time.Add` itself does not overflow for any reachable value and is exact
addition. -/
def NewTimeWindow (from_ : Int) (estimatedMinutes : Int) : TimeWindow :=
  let bufferMinutes := Int.tdiv estimatedMinutes 10
  let bufferMinutes := if bufferMinutes < 5 then 5 else bufferMinutes
  { StartTime := from_ + wrap64 (wrap64 (estimatedMinutes - bufferMinutes) * timeMinute)
    EndTime := from_ + wrap64 (wrap64 (estimatedMinutes + bufferMinutes) * timeMinute) }

/-- Model of `TimeWindow.IsWithinWindow`. -/
def TimeWindow.IsWithinWindow (tw : TimeWindow) (t : Int) : Bool :=
  tw.StartTime < t && t < tw.EndTime

/-- Model of `TimeWindow.HasPassed`. -/
def TimeWindow.HasPassed (tw : TimeWindow) (now : Int) : Bool :=
  tw.EndTime < now

/-- Model of `OrderStatus` (entity.go). The Go type is an int enum; only the
eight named constants occur anywhere in the program, so the model uses an
inductive type (in status order PENDING .. CANCELLED). -/
inductive OrderStatus
  | Pending
  | Accepted
  | Rejected
  | Preparing
  | Ready
  | OutForDelivery
  | Completed
  | Cancelled
deriving DecidableEq, Repr

/-- Model of `OrderStatus.String` (entity.go); the UNKNOWN branch is
unreachable for the named constants. -/
def OrderStatus.String : OrderStatus → String
  | .Pending => "PENDING"
  | .Accepted => "ACCEPTED"
  | .Rejected => "REJECTED"
  | .Preparing => "PREPARING"
  | .Ready => "READY"
  | .OutForDelivery => "OUT_FOR_DELIVERY"
  | .Completed => "COMPLETED"
  | .Cancelled => "CANCELLED"

/-- Model of `StatusChange` (entity.go): the audit record appended on each
transition. -/
structure StatusChange where
  From : OrderStatus
  To : OrderStatus
  Reason : String
  ChangedAt : Int
  ChangedBy : UUID
deriving DecidableEq, Repr

/-- Model of the `validTransitions` map (entity.go). All eight statuses are
present as keys (terminal states map to the empty list), so the `exists`
check in `canTransitionTo` always succeeds. -/
def validTransitions : OrderStatus → List OrderStatus
  | .Pending => [.Accepted, .Rejected, .Cancelled]
  | .Accepted => [.Preparing, .Cancelled]
  | .Preparing => [.Ready, .Cancelled]
  | .Ready => [.OutForDelivery, .Completed, .Cancelled]
  | .OutForDelivery => [.Completed, .Cancelled]
  | .Completed => []
  | .Rejected => []
  | .Cancelled => []

/-- Model of `OrderItem` (entity.go). `Quantity` is a Go int. -/
structure OrderItem where
  MenuItemID : UUID
  MenuItemName : String
  Quantity : Int
  PricePerItem : Money
deriving DecidableEq, Repr

/-- Model of `OrderItem.CalculateSubtotal` (entity.go). -/
def OrderItem.CalculateSubtotal (oi : OrderItem) : Money :=
  oi.PricePerItem.Multiply oi.Quantity

/-- Model of the `DomainEvent` catalog (part_015): the Go interface with its
eight record implementations becomes a sum type, one constructor per Go
struct, fields in source order. Instants are nanoseconds. -/
inductive DomainEvent
  | OrderPlacedEvent (OrderID CustomerID MerchantID : UUID) (TotalAmount : Money)
      (DeliveryMethod : DeliveryMethod) (PlacedAt : Int)
  | OrderAcceptedEvent (OrderID MerchantID CustomerID : UUID) (EstimatedTime AcceptedAt : Int)
  | OrderRejectedEvent (OrderID MerchantID CustomerID : UUID) (Reason : String) (RejectedAt : Int)
  | OrderPreparingEvent (OrderID MerchantID CustomerID : UUID) (StartedAt : Int)
  | OrderReadyEvent (OrderID MerchantID CustomerID : UUID) (DeliveryMethod : DeliveryMethod)
      (ReadyAt : Int)
  | OrderOutForDeliveryEvent (OrderID CustomerID DriverID : UUID) (Address : Option Address)
      (DispatchedAt : Int)
  | OrderCompletedEvent (OrderID MerchantID CustomerID : UUID) (CompletedAt : Int)
  | OrderCancelledEvent (OrderID MerchantID CustomerID : UUID) (Reason : String)
      (CancelledBy : UUID) (CancelledAt : Int)
deriving DecidableEq, Repr

/-- Model of `DomainEvent.EventName` (part_015). -/
def DomainEvent.EventName : DomainEvent → String
  | .OrderPlacedEvent _ _ _ _ _ _ => "order.placed"
  | .OrderAcceptedEvent _ _ _ _ _ => "order.accepted"
  | .OrderRejectedEvent _ _ _ _ _ => "order.rejected"
  | .OrderPreparingEvent _ _ _ _ => "order.preparing"
  | .OrderReadyEvent _ _ _ _ _ => "order.ready"
  | .OrderOutForDeliveryEvent _ _ _ _ _ => "order.out_for_delivery"
  | .OrderCompletedEvent _ _ _ _ => "order.completed"
  | .OrderCancelledEvent _ _ _ _ _ _ => "order.cancelled"

/-- Domain errors of the order package (entity.go), plus the ad-hoc
`errors.New("can only dispatch delivery orders")` from `DispatchForDelivery`.
`ErrInvalidStateTransition` carries the formatted detail appended by
`fmt.Errorf`. -/
inductive OrderError
  | ErrInvalidStateTransition (msg : String)
  | ErrOrderNotPending
  | ErrEmptyOrder
  | ErrInvalidQuantity
  | ErrMissingMerchant
  | ErrMissingCustomer
  | ErrInvalidDeliveryMethod
  | ErrDeliveryAddressRequired
  | ErrCanOnlyDispatchDeliveryOrders
deriving DecidableEq, Repr

/-- Model of `Order` (entity.go), the aggregate root. -/
structure Order where
  id : UUID
  customerID : UUID
  merchantID : UUID
  items : List OrderItem
  status : OrderStatus
  totalAmount : Money
  deliveryMethod : DeliveryMethod
  deliveryAddress : Option Address
  estimatedWindow : Option TimeWindow
  createdAt : Int
  updatedAt : Int
  statusHistory : List StatusChange
  events : List DomainEvent
deriving DecidableEq, Repr

/-- Model of `Order.canTransitionTo` (entity.go): linear scan of the
transition table's entry for the current status. -/
def Order.canTransitionTo (o : Order) (newStatus : OrderStatus) : Bool :=
  (validTransitions o.status).any (fun valid => valid == newStatus)

/-- Model of `Order.recordStatusChange` (entity.go). `From` is read from
`o.status` at call time; every caller has already overwritten `o.status` with
the new status when it calls this, so the recorded `From` equals the new
status. -/
def Order.recordStatusChange (o : Order) (newStatus : OrderStatus) (reason : String)
    (changedBy : UUID) (now : Int) : Order :=
  { o with statusHistory := o.statusHistory ++
      [{ From := o.status, To := newStatus, Reason := reason, ChangedAt := now,
         ChangedBy := changedBy }] }

/-- Item-validation-and-total loop of `NewOrder` (entity.go): per item, reject
a non-positive quantity, otherwise add the item subtotal. The outer `none`
models the panic of `Money.Add` on a currency mismatch. -/
def newOrderTotalLoop (total : Money) : List OrderItem → Option (Except OrderError Money)
  | [] => some (Except.ok total)
  | item :: rest =>
    if item.Quantity ≤ 0 then some (Except.error OrderError.ErrInvalidQuantity)
    else
      match total.Add item.CalculateSubtotal with
      | none => none
      | some t => newOrderTotalLoop t rest

/-- Model of `NewOrder` (entity.go). `id` models the internal `uuid.New()`
and `now` the internal `time.Now()`. The outer `Option` is `none` exactly
when the Go code would panic inside `Money.Add`. -/
def NewOrder (customerID merchantID : UUID) (items : List OrderItem)
    (deliveryMethod : DeliveryMethod) (deliveryAddress : Option Address)
    (id : UUID) (now : Int) : Option (Except OrderError Order) :=
  if customerID = UUID.nil then some (Except.error OrderError.ErrMissingCustomer)
  else if merchantID = UUID.nil then some (Except.error OrderError.ErrMissingMerchant)
  else if items.length = 0 then some (Except.error OrderError.ErrEmptyOrder)
  else if !deliveryMethod.IsValid then some (Except.error OrderError.ErrInvalidDeliveryMethod)
  else if deliveryMethod = DeliveryMethodDelivery ∧ deliveryAddress = none then
    some (Except.error OrderError.ErrDeliveryAddressRequired)
  else
    match newOrderTotalLoop (NewMoney 0) items with
    | none => none
    | some (Except.error e) => some (Except.error e)
    | some (Except.ok total) =>
      some (Except.ok
        { id := id
          customerID := customerID
          merchantID := merchantID
          items := items
          status := OrderStatus.Pending
          totalAmount := total
          deliveryMethod := deliveryMethod
          deliveryAddress := deliveryAddress
          estimatedWindow := none
          createdAt := now
          updatedAt := now
          statusHistory := []
          events := [DomainEvent.OrderPlacedEvent id customerID merchantID total
            deliveryMethod now] })

/-- Model of `Order.Accept` (entity.go). The Go method mutates the receiver
and returns `([]DomainEvent, error)`; the model returns the outcome together
with the final receiver state (unchanged on the error path, where the source
returns before any assignment). -/
def Order.Accept (o : Order) (estimatedMinutes : Int) (acceptedBy : UUID) (now : Int) :
    Except OrderError (List DomainEvent) × Order :=
  if !(o.canTransitionTo OrderStatus.Accepted) then
    (Except.error (OrderError.ErrInvalidStateTransition
      ("cannot transition from " ++ o.status.String ++ " to ACCEPTED")), o)
  else
    let window := NewTimeWindow now estimatedMinutes
    let o1 := { o with status := OrderStatus.Accepted, estimatedWindow := some window }
    let o2 := o1.recordStatusChange OrderStatus.Accepted "Order accepted by merchant" acceptedBy now
    let o3 := { o2 with updatedAt := now }
    let event := DomainEvent.OrderAcceptedEvent o3.id o3.merchantID o3.customerID
      window.EndTime now
    let o4 := { o3 with events := o3.events ++ [event] }
    (Except.ok [event], o4)

/-- Model of `Order.Reject` (entity.go). -/
def Order.Reject (o : Order) (reason : String) (rejectedBy : UUID) (now : Int) :
    Except OrderError (List DomainEvent) × Order :=
  if !(o.canTransitionTo OrderStatus.Rejected) then
    (Except.error (OrderError.ErrInvalidStateTransition
      ("cannot transition from " ++ o.status.String ++ " to REJECTED")), o)
  else
    let o1 := { o with status := OrderStatus.Rejected }
    let o2 := o1.recordStatusChange OrderStatus.Rejected reason rejectedBy now
    let o3 := { o2 with updatedAt := now }
    let event := DomainEvent.OrderRejectedEvent o3.id o3.merchantID o3.customerID reason now
    let o4 := { o3 with events := o3.events ++ [event] }
    (Except.ok [event], o4)

/-- Model of `Order.StartPreparing` (entity.go). -/
def Order.StartPreparing (o : Order) (preparedBy : UUID) (now : Int) :
    Except OrderError (List DomainEvent) × Order :=
  if !(o.canTransitionTo OrderStatus.Preparing) then
    (Except.error (OrderError.ErrInvalidStateTransition
      ("cannot transition from " ++ o.status.String ++ " to PREPARING")), o)
  else
    let o1 := { o with status := OrderStatus.Preparing }
    let o2 := o1.recordStatusChange OrderStatus.Preparing "Order preparation started" preparedBy now
    let o3 := { o2 with updatedAt := now }
    let event := DomainEvent.OrderPreparingEvent o3.id o3.merchantID o3.customerID now
    let o4 := { o3 with events := o3.events ++ [event] }
    (Except.ok [event], o4)

/-- Model of `Order.MarkReady` (entity.go). -/
def Order.MarkReady (o : Order) (markedBy : UUID) (now : Int) :
    Except OrderError (List DomainEvent) × Order :=
  if !(o.canTransitionTo OrderStatus.Ready) then
    (Except.error (OrderError.ErrInvalidStateTransition
      ("cannot transition from " ++ o.status.String ++ " to READY")), o)
  else
    let o1 := { o with status := OrderStatus.Ready }
    let o2 := o1.recordStatusChange OrderStatus.Ready "Order is ready" markedBy now
    let o3 := { o2 with updatedAt := now }
    let event := DomainEvent.OrderReadyEvent o3.id o3.merchantID o3.customerID
      o3.deliveryMethod now
    let o4 := { o3 with events := o3.events ++ [event] }
    (Except.ok [event], o4)

/-- Model of `Order.DispatchForDelivery` (entity.go): the delivery-method
check precedes the transition-table check. -/
def Order.DispatchForDelivery (o : Order) (driverID : UUID) (now : Int) :
    Except OrderError (List DomainEvent) × Order :=
  if o.deliveryMethod ≠ DeliveryMethodDelivery then
    (Except.error OrderError.ErrCanOnlyDispatchDeliveryOrders, o)
  else if !(o.canTransitionTo OrderStatus.OutForDelivery) then
    (Except.error (OrderError.ErrInvalidStateTransition
      ("cannot transition from " ++ o.status.String ++ " to OUT_FOR_DELIVERY")), o)
  else
    let o1 := { o with status := OrderStatus.OutForDelivery }
    let o2 := o1.recordStatusChange OrderStatus.OutForDelivery "Order out for delivery" driverID now
    let o3 := { o2 with updatedAt := now }
    let event := DomainEvent.OrderOutForDeliveryEvent o3.id o3.customerID driverID
      o3.deliveryAddress now
    let o4 := { o3 with events := o3.events ++ [event] }
    (Except.ok [event], o4)

/-- Model of `Order.Complete` (entity.go). -/
def Order.Complete (o : Order) (completedBy : UUID) (now : Int) :
    Except OrderError (List DomainEvent) × Order :=
  if !(o.canTransitionTo OrderStatus.Completed) then
    (Except.error (OrderError.ErrInvalidStateTransition
      ("cannot transition from " ++ o.status.String ++ " to COMPLETED")), o)
  else
    let o1 := { o with status := OrderStatus.Completed }
    let o2 := o1.recordStatusChange OrderStatus.Completed "Order completed" completedBy now
    let o3 := { o2 with updatedAt := now }
    let event := DomainEvent.OrderCompletedEvent o3.id o3.merchantID o3.customerID now
    let o4 := { o3 with events := o3.events ++ [event] }
    (Except.ok [event], o4)

/-- Model of `Order.Cancel` (entity.go). -/
def Order.Cancel (o : Order) (reason : String) (cancelledBy : UUID) (now : Int) :
    Except OrderError (List DomainEvent) × Order :=
  if !(o.canTransitionTo OrderStatus.Cancelled) then
    (Except.error (OrderError.ErrInvalidStateTransition
      ("cannot transition from " ++ o.status.String ++ " to CANCELLED")), o)
  else
    let o1 := { o with status := OrderStatus.Cancelled }
    let o2 := o1.recordStatusChange OrderStatus.Cancelled reason cancelledBy now
    let o3 := { o2 with updatedAt := now }
    let event := DomainEvent.OrderCancelledEvent o3.id o3.merchantID o3.customerID reason
      cancelledBy now
    let o4 := { o3 with events := o3.events ++ [event] }
    (Except.ok [event], o4)

/-- Model of `Order.ClearEvents` (entity.go). -/
def Order.ClearEvents (o : Order) : Order := { o with events := [] }

/-- Model of the `eventbus.Event` interface (interface.go): a value exposing a
topic name; the rest of the event's data is abstracted into an opaque payload
string. -/
structure BusEvent where
  Topic : String
  Payload : String
deriving DecidableEq, Repr

/-- Model of `eventbus.Handler` (interface.go): `func(ctx, event) error`.
The context argument is immaterial to every claim and is dropped. -/
def Handler : Type := BusEvent → Except String Unit

/-- Model of `InMemoryEventBus` (part_010 and in_memory.go, identical
state): a `map[string][]Handler`, where a missing key is distinguished from a
key mapped to an empty slice. -/
structure InMemoryEventBus where
  subscribers : String → Option (List Handler)

/-- Model of `NewInMemoryEventBus`: an empty subscriber map. -/
def NewInMemoryEventBus : InMemoryEventBus := { subscribers := fun _ => none }

/-- Model of `InMemoryEventBus.Subscribe` (part_010 and in_memory.go,
identical): `b.subscribers[topic] = append(b.subscribers[topic], handler)`
(appending to the nil slice of a missing key yields a one-element slice), and
return nil. The result pairs the updated bus with the returned error. -/
def InMemoryEventBus.Subscribe (b : InMemoryEventBus) (topic : String) (handler : Handler) :
    InMemoryEventBus × Except String Unit :=
  ({ subscribers := fun t =>
      if t = topic then some ((b.subscribers topic).getD [] ++ [handler])
      else b.subscribers t },
   Except.ok ())

/-- Model of the fire-and-forget `InMemoryEventBus.Publish` (part_010): read
the handler list for the event's topic (missing key: return nil immediately);
otherwise spawn one goroutine per handler and return nil without waiting.
The first component is the outcome returned to the publisher; the second
lists the spawned handler invocations in registration order, each with the
outcome that the goroutine merely logs. -/
def InMemoryEventBus.Publish (b : InMemoryEventBus) (event : BusEvent) :
    Except String Unit × List (Except String Unit) :=
  match b.subscribers event.Topic with
  | none => (Except.ok (), [])
  | some handlers => (Except.ok (), handlers.map fun h => h event)

/-- Model of the sequential `InMemoryEventBus.Publish` variant (in_memory.go):
run handlers in order, stopping at and returning the first handler error.
(The production wiring uses the fire-and-forget variant above; this blocking
variant is the repository's mutually exclusive alternative design.) -/
def InMemoryEventBus.PublishSequential (b : InMemoryEventBus) (event : BusEvent) :
    Except String Unit :=
  match b.subscribers event.Topic with
  | none => Except.ok ()
  | some handlers => handlers.foldl (fun acc h => acc.bind fun _ => h event) (Except.ok ())

/-- Model of `RedisEventBus` (part_011). The JSON marshaller and the Redis
client are external collaborators, modeled as function-valued fields:
`marshal` is `json.Marshal` (bytes or error) and `clientPublish` is
`client.Publish(ctx, topic, payload).Err()`. -/
structure RedisEventBus where
  marshal : BusEvent → Except String (List Nat)
  clientPublish : String → List Nat → Except String Unit

/-- Model of `RedisEventBus.Publish` (part_011): marshal the event; on
failure return the wrapped marshal error; otherwise hand the payload to the
broker under the event's topic and return the broker's outcome. -/
def RedisEventBus.Publish (b : RedisEventBus) (event : BusEvent) : Except String Unit :=
  match b.marshal event with
  | Except.error err => Except.error ("failed to marshal event: " ++ err)
  | Except.ok payload => b.clientPublish event.Topic payload

/-- Model of `RedisEventBus.Subscribe` (part_011): unconditionally returns a
capability error; the bus holds no registry it could modify. -/
def RedisEventBus.Subscribe (_b : RedisEventBus) (_topic : String) (_handler : Handler) :
    Except String Unit :=
  Except.error "Subscribe is not implemented for RedisEventBus; subscriptions should be handled by a dedicated worker process"

/-- Enumeration of the seven named transition methods, used to quantify over
the transition table. -/
inductive TransitionKind
  | accept
  | reject
  | startPreparing
  | markReady
  | dispatchForDelivery
  | complete
  | cancel
deriving DecidableEq, Repr

/-- Target status of each transition method. -/
def TransitionKind.target : TransitionKind → OrderStatus
  | .accept => OrderStatus.Accepted
  | .reject => OrderStatus.Rejected
  | .startPreparing => OrderStatus.Preparing
  | .markReady => OrderStatus.Ready
  | .dispatchForDelivery => OrderStatus.OutForDelivery
  | .complete => OrderStatus.Completed
  | .cancel => OrderStatus.Cancelled

/-- Dispatcher applying the transition method selected by `k` (the methods
have heterogeneous parameters; unused ones are ignored per method). -/
def applyTransition (k : TransitionKind) (o : Order) (estimatedMinutes : Int)
    (reason : String) (actor : UUID) (now : Int) :
    Except OrderError (List DomainEvent) × Order :=
  match k with
  | .accept => o.Accept estimatedMinutes actor now
  | .reject => o.Reject reason actor now
  | .startPreparing => o.StartPreparing actor now
  | .markReady => o.MarkReady actor now
  | .dispatchForDelivery => o.DispatchForDelivery actor now
  | .complete => o.Complete actor now
  | .cancel => o.Cancel reason actor now

/-- Transition errors in the sense of the specification's error taxonomy
(section 7): a target not reachable from the current state per the table, or
the delivery-method cross-cutting rule on dispatch. -/
def isTransitionError : OrderError → Bool
  | OrderError.ErrInvalidStateTransition _ => true
  | OrderError.ErrCanOnlyDispatchDeliveryOrders => true
  | _ => false

/-- Event constructor tag produced by each transition method, for stating
that the emitted event has the matching type. -/
def eventMatchesKind : TransitionKind → DomainEvent → Prop
  | .accept, DomainEvent.OrderAcceptedEvent _ _ _ _ _ => True
  | .reject, DomainEvent.OrderRejectedEvent _ _ _ _ _ => True
  | .startPreparing, DomainEvent.OrderPreparingEvent _ _ _ _ => True
  | .markReady, DomainEvent.OrderReadyEvent _ _ _ _ _ => True
  | .dispatchForDelivery, DomainEvent.OrderOutForDeliveryEvent _ _ _ _ _ => True
  | .complete, DomainEvent.OrderCompletedEvent _ _ _ _ => True
  | .cancel, DomainEvent.OrderCancelledEvent _ _ _ _ _ _ => True
  | _, _ => False

/-- Validation rules of the order factory, written from the claim: missing
customer id, missing merchant id, empty item list, invalid delivery method,
delivery without an address, or a non-positive item quantity. -/
def validationViolated (customerID merchantID : UUID) (items : List OrderItem)
    (deliveryMethod : DeliveryMethod) (deliveryAddress : Option Address) : Prop :=
  customerID = UUID.nil ∨ merchantID = UUID.nil ∨ items = [] ∨
  deliveryMethod.IsValid = false ∨
  (deliveryMethod = DeliveryMethodDelivery ∧ deliveryAddress = none) ∨
  (∃ i ∈ items, i.Quantity ≤ 0)

/-- Decidability of the factory validation predicate. -/
instance validationViolatedDecidable (customerID merchantID : UUID) (items : List OrderItem)
    (deliveryMethod : DeliveryMethod) (deliveryAddress : Option Address) :
    Decidable (validationViolated customerID merchantID items deliveryMethod deliveryAddress) := by
  unfold validationViolated
  infer_instance

/-- Rendering of `a` satoshis as BTC with 8 decimal places of exactly
`a / 100,000,000`, following the specification's words (for comparison with
the implemented `Money.String`). -/
def renderSpecBTC (a : Nat) : String :=
  toString (a / 100000000) ++ "." ++ padZeros (toString (a % 100000000)) 8 ++ " BTC"

/-- Wiring helper: subscribe a list of handlers, in order, to one topic. -/
def subscribeAll (b : InMemoryEventBus) (topic : String) (hs : List Handler) :
    InMemoryEventBus :=
  hs.foldl (fun b h => (b.Subscribe topic h).1) b

/-- Total amount extracted from a factory result, for concrete statements. -/
def factoryTotal : Option (Except OrderError Order) → Option Int
  | some (Except.ok o) => some o.totalAmount.amount
  | _ => none

/-- Test fixture: two units of a 25,000-sat item. -/
def burgerItem : OrderItem :=
  { MenuItemID := ⟨10⟩, MenuItemName := "Burger", Quantity := 2,
    PricePerItem := NewMoney 25000 }

/-- Test fixture: one unit of a 10,000-sat item. -/
def friesItem : OrderItem :=
  { MenuItemID := ⟨11⟩, MenuItemName := "Fries", Quantity := 1,
    PricePerItem := NewMoney 10000 }

/-- Test fixture: one item whose subtotal overflows int64 (2 × 2^62 sats). -/
def hugeItem : OrderItem :=
  { MenuItemID := ⟨12⟩, MenuItemName := "Treasure", Quantity := 2,
    PricePerItem := NewMoney 4611686018427387904 }

/-- Test fixture: a delivery address. -/
def sampleAddress : Address :=
  { street := "123 Main St", city := "San Francisco", state := "CA",
    postalCode := "94102", country := "USA", unit := "" }

/-- Test fixture: the pending pickup order built by `NewOrder` from customer 1,
merchant 2, the burger and fries items, order id 3, at instant 0. -/
def pendingPickupOrder : Order :=
  { id := ⟨3⟩, customerID := ⟨1⟩, merchantID := ⟨2⟩,
    items := [burgerItem, friesItem], status := OrderStatus.Pending,
    totalAmount := { amount := 60000, currency := "BTC" },
    deliveryMethod := DeliveryMethodPickup, deliveryAddress := none,
    estimatedWindow := none, createdAt := 0, updatedAt := 0,
    statusHistory := [],
    events := [DomainEvent.OrderPlacedEvent ⟨3⟩ ⟨1⟩ ⟨2⟩
      { amount := 60000, currency := "BTC" } DeliveryMethodPickup 0] }

/-- Test fixture: a pickup order already in READY state. -/
def readyPickupOrder : Order :=
  { pendingPickupOrder with status := OrderStatus.Ready }

/-- Test fixture: a delivery order already in READY state. -/
def readyDeliveryOrder : Order :=
  { pendingPickupOrder with
    status := OrderStatus.Ready
    deliveryMethod := DeliveryMethodDelivery
    deliveryAddress := some sampleAddress }

/-- Test fixture: a handler that always fails. -/
def failingHandler : Handler := fun _ => Except.error "boom"

/-- Test fixture: a handler that always succeeds. -/
def okHandler : Handler := fun _ => Except.ok ()

/-- Test fixture: a bridge whose marshaller always fails. -/
def failingMarshalBus : RedisEventBus :=
  { marshal := fun _ => Except.error "unsupported type",
    clientPublish := fun _ _ => Except.ok () }

/-- Test fixture: a bridge whose marshaller succeeds and whose broker reports
a transmission error. -/
def failingBrokerBus : RedisEventBus :=
  { marshal := fun e => Except.ok (e.Payload.data.map Char.toNat),
    clientPublish := fun _ _ => Except.error "connection refused" }

set_option maxHeartbeats 1000000

/-! Helper lemmas shared by the claim theorems. -/

theorem wrap64_add_left (a b : Int) : wrap64 (wrap64 a + b) = wrap64 (a + b) := by
  unfold wrap64
  omega

theorem wrap64_wrap64 (x : Int) : wrap64 (wrap64 x) = wrap64 x := by
  unfold wrap64
  omega

theorem wrap64_add_middle (x y z : Int) : wrap64 (x + wrap64 y + z) = wrap64 (x + y + z) := by
  unfold wrap64
  omega

theorem wrap64_eq_self {x : Int} (h1 : -9223372036854775808 ≤ x)
    (h2 : x < 9223372036854775808) : wrap64 x = x := by
  unfold wrap64
  omega

theorem canTransitionTo_eq_false {o : Order} {s : OrderStatus}
    (h : s ∉ validTransitions o.status) : o.canTransitionTo s = false := by
  simp only [Order.canTransitionTo, List.any_eq_false, beq_iff_eq]
  intro x hx
  exact fun hxs => h (hxs ▸ hx)

theorem canTransitionTo_eq_true {o : Order} {s : OrderStatus}
    (h : s ∈ validTransitions o.status) : o.canTransitionTo s = true := by
  simp only [Order.canTransitionTo, List.any_eq_true, beq_iff_eq]
  exact ⟨s, h, rfl⟩

theorem tdivTenBounds (x : Int) (h1 : -100000000 ≤ x) (h2 : x ≤ 100000000) :
    -10000000 ≤ Int.tdiv x 10 ∧ Int.tdiv x 10 ≤ 10000000 := by
  rcases le_or_lt 0 x with hx | hx
  · rw [Int.tdiv_eq_ediv hx (by norm_num)]
    omega
  · have hneg : Int.tdiv x 10 = -(Int.tdiv (-x) 10) := by
      rw [← Int.neg_tdiv, neg_neg]
    rw [hneg, Int.tdiv_eq_ediv (by omega) (by norm_num)]
    omega

theorem subscribeAll_subscribers (t : String) (hs : List Handler) (b : InMemoryEventBus) :
    (subscribeAll b t hs).subscribers t =
      (if hs.isEmpty then b.subscribers t
       else some ((b.subscribers t).getD [] ++ hs)) := by
  induction hs generalizing b with
  | nil => simp [subscribeAll]
  | cons hh ht ih =>
    simp only [subscribeAll, List.foldl_cons] at *
    rw [ih]
    by_cases he : ht.isEmpty
    · have : ht = [] := List.isEmpty_iff.mp he
      subst this
      simp [InMemoryEventBus.Subscribe]
    · simp [he, InMemoryEventBus.Subscribe]

theorem newOrderTotalLoop_ok (items : List OrderItem) (total t : Money)
    (hw : wrap64 total.amount = total.amount)
    (h : newOrderTotalLoop total items = some (Except.ok t)) :
    t.amount = wrap64 (total.amount +
      (items.map fun i => i.PricePerItem.amount * i.Quantity).sum) ∧
    t.currency = total.currency := by
  induction items generalizing total with
  | nil =>
    simp only [newOrderTotalLoop, Option.some.injEq, Except.ok.injEq] at h
    subst h
    simp only [List.map_nil, List.sum_nil, add_zero]
    exact ⟨hw.symm, trivial⟩
  | cons i rest ih =>
    simp only [newOrderTotalLoop] at h
    by_cases hq : i.Quantity ≤ 0
    · rw [if_pos hq] at h
      simp at h
    · rw [if_neg hq] at h
      cases hadd : total.Add i.CalculateSubtotal with
      | none =>
        rw [hadd] at h
        simp at h
      | some t' =>
        rw [hadd] at h
        unfold Money.Add at hadd
        by_cases hc : total.currency ≠ i.CalculateSubtotal.currency
        · rw [if_pos hc] at hadd
          simp at hadd
        · rw [if_neg hc] at hadd
          simp only [Option.some.injEq] at hadd
          obtain ⟨h1, h2⟩ := ih t' (by rw [← hadd]; exact wrap64_wrap64 _) h
          rw [← hadd] at h1 h2
          simp only at h1 h2
          refine ⟨?_, h2⟩
          rw [h1, wrap64_add_left, List.map_cons, List.sum_cons]
          have hsub : i.CalculateSubtotal.amount =
              wrap64 (i.PricePerItem.amount * i.Quantity) := rfl
          rw [hsub, wrap64_add_middle]
          congr 1
          ring

theorem newOrderTotalLoop_err (items : List OrderItem) (total : Money)
    (hBTC : ∀ i ∈ items, i.PricePerItem.currency = "BTC") (ht : total.currency = "BTC")
    (hviol : ∃ i ∈ items, i.Quantity ≤ 0) :
    newOrderTotalLoop total items = some (Except.error OrderError.ErrInvalidQuantity) := by
  induction items generalizing total with
  | nil => simp at hviol
  | cons i rest ih =>
    simp only [newOrderTotalLoop]
    by_cases hq : i.Quantity ≤ 0
    · rw [if_pos hq]
    · rw [if_neg hq]
      have hcur : i.CalculateSubtotal.currency = "BTC" := by
        have := hBTC i (by simp)
        simp only [OrderItem.CalculateSubtotal, Money.Multiply]
        exact this
      cases hadd : total.Add i.CalculateSubtotal with
      | none =>
        unfold Money.Add at hadd
        rw [if_neg (by rw [ht, hcur]; simp)] at hadd
        cases hadd
      | some t' =>
        have ht' : t'.currency = "BTC" := by
          unfold Money.Add at hadd
          rw [if_neg (by rw [ht, hcur]; simp)] at hadd
          simp only [Option.some.injEq] at hadd
          rw [← hadd, ht]
        refine ih t' ?_ ht' ?_
        · intro j hj
          exact hBTC j (by simp [hj])
        · obtain ⟨j, hj, hjq⟩ := hviol
          rcases List.mem_cons.mp hj with hji | hjr
          · exact absurd (hji ▸ hjq) hq
          · exact ⟨j, hjr, hjq⟩

theorem newOrderTotalLoop_exists_ok (items : List OrderItem) (total : Money)
    (hBTC : ∀ i ∈ items, i.PricePerItem.currency = "BTC") (ht : total.currency = "BTC")
    (hok : ∀ i ∈ items, 0 < i.Quantity) :
    ∃ t, newOrderTotalLoop total items = some (Except.ok t) := by
  induction items generalizing total with
  | nil => exact ⟨total, rfl⟩
  | cons i rest ih =>
    simp only [newOrderTotalLoop]
    rw [if_neg (by have := hok i (by simp); omega)]
    have hcur : i.CalculateSubtotal.currency = "BTC" := by
      have := hBTC i (by simp)
      simp only [OrderItem.CalculateSubtotal, Money.Multiply]
      exact this
    cases hadd : total.Add i.CalculateSubtotal with
    | none =>
      unfold Money.Add at hadd
      rw [if_neg (by rw [ht, hcur]; simp)] at hadd
      cases hadd
    | some t' =>
      have ht' : t'.currency = "BTC" := by
        unfold Money.Add at hadd
        rw [if_neg (by rw [ht, hcur]; simp)] at hadd
        simp only [Option.some.injEq] at hadd
        rw [← hadd, ht]
      exact ih t' (fun j hj => hBTC j (by simp [hj])) ht' (fun j hj => hok j (by simp [hj]))

theorem transition_preserves_total_items (k : TransitionKind) (o : Order)
    (em : Int) (rs : String) (actor : UUID) (now : Int) :
    ((applyTransition k o em rs actor now).2).totalAmount = o.totalAmount ∧
    ((applyTransition k o em rs actor now).2).items = o.items := by
  cases k <;> constructor <;>
    simp only [applyTransition, Order.Accept, Order.Reject, Order.StartPreparing,
      Order.MarkReady, Order.DispatchForDelivery, Order.Complete, Order.Cancel,
      Order.recordStatusChange] <;>
    split_ifs <;> rfl

/-- Decidable equality for `Except`, needed to evaluate factory and method
results in concrete statements. -/
instance {e a : Type} [DecidableEq e] [DecidableEq a] : DecidableEq (Except e a) := fun x y =>
  match x, y with
  | Except.error ex, Except.error ey =>
    if h : ex = ey then isTrue (by rw [h]) else isFalse (by intro hc; cases hc; exact h rfl)
  | Except.ok ax, Except.ok ay =>
    if h : ax = ay then isTrue (by rw [h]) else isFalse (by intro hc; cases hc; exact h rfl)
  | Except.error _, Except.ok _ => isFalse (by intro hc; cases hc)
  | Except.ok _, Except.error _ => isFalse (by intro hc; cases hc)

/-! Claim theorems. -/

/-- C1: for every (from, to) pair in the transition table the matching method
succeeds, sets the status to `to`, updates the modification timestamp, and
appends and returns exactly one matching event — but the single appended
`StatusChange` does NOT carry `From = from`: because every method assigns the
new status to `o.status` before calling `recordStatusChange`, which reads
`From` from `o.status`, the recorded `From` equals the NEW status.  Concrete
evaluation at a PENDING pickup order: `Accept` succeeds and appends
`StatusChange` with `From = ACCEPTED` (not PENDING), contradicting the claim
and the evident intent of the audit record. -/
theorem c1_statusChange_from_bug_eval :
    NewOrder ⟨1⟩ ⟨2⟩ [burgerItem, friesItem] DeliveryMethodPickup none ⟨3⟩ 0 =
      some (Except.ok pendingPickupOrder) ∧
    pendingPickupOrder.status = OrderStatus.Pending ∧
    (pendingPickupOrder.Accept 30 ⟨2⟩ 5).1 =
      Except.ok [DomainEvent.OrderAcceptedEvent ⟨3⟩ ⟨2⟩ ⟨1⟩ 2100000000005 5] ∧
    ((pendingPickupOrder.Accept 30 ⟨2⟩ 5).2).status = OrderStatus.Accepted ∧
    ((pendingPickupOrder.Accept 30 ⟨2⟩ 5).2).updatedAt = 5 ∧
    ((pendingPickupOrder.Accept 30 ⟨2⟩ 5).2).statusHistory =
      [{ From := OrderStatus.Accepted, To := OrderStatus.Accepted,
         Reason := "Order accepted by merchant", ChangedAt := 5, ChangedBy := ⟨2⟩ }] ∧
    OrderStatus.Accepted ≠ OrderStatus.Pending := by
  refine ⟨by decide, by decide, by decide, by decide, by decide, by decide, by decide⟩

/-- C2: for every (from, to) pair NOT in the transition table, the matching
transition method fails with a transition error (in the spec's taxonomy this
includes the delivery-method rule hit by `DispatchForDelivery` on non-delivery
orders) and the order — status, history, updatedAt, pending events, every
field — is returned completely unchanged. -/
theorem c2_invalid_transition_rejected (k : TransitionKind) (o : Order)
    (estimatedMinutes : Int) (reason : String) (actor : UUID) (now : Int)
    (h : k.target ∉ validTransitions o.status) :
    (applyTransition k o estimatedMinutes reason actor now).2 = o ∧
    ∃ e, (applyTransition k o estimatedMinutes reason actor now).1 = Except.error e ∧
      isTransitionError e = true := by
  cases k with
  | accept =>
    have hc : o.canTransitionTo OrderStatus.Accepted = false := canTransitionTo_eq_false h
    exact ⟨by simp [applyTransition, Order.Accept, hc],
      OrderError.ErrInvalidStateTransition
        ("cannot transition from " ++ o.status.String ++ " to ACCEPTED"),
      by simp [applyTransition, Order.Accept, hc], rfl⟩
  | reject =>
    have hc : o.canTransitionTo OrderStatus.Rejected = false := canTransitionTo_eq_false h
    exact ⟨by simp [applyTransition, Order.Reject, hc],
      OrderError.ErrInvalidStateTransition
        ("cannot transition from " ++ o.status.String ++ " to REJECTED"),
      by simp [applyTransition, Order.Reject, hc], rfl⟩
  | startPreparing =>
    have hc : o.canTransitionTo OrderStatus.Preparing = false := canTransitionTo_eq_false h
    exact ⟨by simp [applyTransition, Order.StartPreparing, hc],
      OrderError.ErrInvalidStateTransition
        ("cannot transition from " ++ o.status.String ++ " to PREPARING"),
      by simp [applyTransition, Order.StartPreparing, hc], rfl⟩
  | markReady =>
    have hc : o.canTransitionTo OrderStatus.Ready = false := canTransitionTo_eq_false h
    exact ⟨by simp [applyTransition, Order.MarkReady, hc],
      OrderError.ErrInvalidStateTransition
        ("cannot transition from " ++ o.status.String ++ " to READY"),
      by simp [applyTransition, Order.MarkReady, hc], rfl⟩
  | dispatchForDelivery =>
    have hc : o.canTransitionTo OrderStatus.OutForDelivery = false := canTransitionTo_eq_false h
    by_cases hd : o.deliveryMethod = DeliveryMethodDelivery
    · exact ⟨by simp [applyTransition, Order.DispatchForDelivery, hc, hd],
        OrderError.ErrInvalidStateTransition
          ("cannot transition from " ++ o.status.String ++ " to OUT_FOR_DELIVERY"),
        by simp [applyTransition, Order.DispatchForDelivery, hc, hd], rfl⟩
    · exact ⟨by simp [applyTransition, Order.DispatchForDelivery, hd],
        OrderError.ErrCanOnlyDispatchDeliveryOrders,
        by simp [applyTransition, Order.DispatchForDelivery, hd], rfl⟩
  | complete =>
    have hc : o.canTransitionTo OrderStatus.Completed = false := canTransitionTo_eq_false h
    exact ⟨by simp [applyTransition, Order.Complete, hc],
      OrderError.ErrInvalidStateTransition
        ("cannot transition from " ++ o.status.String ++ " to COMPLETED"),
      by simp [applyTransition, Order.Complete, hc], rfl⟩
  | cancel =>
    have hc : o.canTransitionTo OrderStatus.Cancelled = false := canTransitionTo_eq_false h
    exact ⟨by simp [applyTransition, Order.Cancel, hc],
      OrderError.ErrInvalidStateTransition
        ("cannot transition from " ++ o.status.String ++ " to CANCELLED"),
      by simp [applyTransition, Order.Cancel, hc], rfl⟩

/-- C2 witness: a READY order cannot be accepted; the order is unchanged and
the error is a transition error. -/
theorem c2_witness :
    (applyTransition TransitionKind.accept readyPickupOrder 30 "late" ⟨4⟩ 7).2 =
      readyPickupOrder ∧
    ∃ e, (applyTransition TransitionKind.accept readyPickupOrder 30 "late" ⟨4⟩ 7).1 =
      Except.error e ∧ isTransitionError e = true :=
  c2_invalid_transition_rejected TransitionKind.accept readyPickupOrder 30 "late" ⟨4⟩ 7
    (by decide)

/-- C3 (amended): for every item list accepted by the factory, the
constructed total is the int64-wrapped sum of price-per-unit times quantity
over all items (equal to the exact sum whenever that sum fits in int64, which
the factory does not check), the total's currency is BTC, the stored items
are the given ones, and no transition method changes the total or the items
of any order. -/
theorem c3_total_wrapped_sum (customerID merchantID : UUID) (items : List OrderItem)
    (dm : DeliveryMethod) (addr : Option Address) (id : UUID) (now : Int) (o : Order)
    (h : NewOrder customerID merchantID items dm addr id now = some (Except.ok o)) :
    o.totalAmount.amount =
      wrap64 ((items.map fun i => i.PricePerItem.amount * i.Quantity).sum) ∧
    o.totalAmount.currency = "BTC" ∧
    o.items = items ∧
    (-9223372036854775808 ≤ (items.map fun i => i.PricePerItem.amount * i.Quantity).sum →
      (items.map fun i => i.PricePerItem.amount * i.Quantity).sum < 9223372036854775808 →
      o.totalAmount.amount = (items.map fun i => i.PricePerItem.amount * i.Quantity).sum) ∧
    (∀ (o' : Order) (k : TransitionKind) (em : Int) (rs : String) (actor : UUID) (now' : Int),
      ((applyTransition k o' em rs actor now').2).totalAmount = o'.totalAmount ∧
      ((applyTransition k o' em rs actor now').2).items = o'.items) := by
  unfold NewOrder at h
  split_ifs at h <;> try simp at h
  cases hloop : newOrderTotalLoop (NewMoney 0) items with
  | none => rw [hloop] at h; simp at h
  | some r =>
    cases r with
    | error e => rw [hloop] at h; simp at h
    | ok total =>
      rw [hloop] at h
      simp only [Option.some.injEq, Except.ok.injEq] at h
      obtain ⟨h1, h2⟩ := newOrderTotalLoop_ok items (NewMoney 0) total rfl hloop
      simp only [NewMoney, zero_add] at h1 h2
      subst h
      refine ⟨h1, h2, rfl, ?_, fun o' k em rs actor now' =>
        transition_preserves_total_items k o' em rs actor now'⟩
      intro hlo hhi
      rw [h1, wrap64_eq_self hlo hhi]

/-- C3 witness: the fixture order's total is the (wrapped) sum of its item
subtotals, in BTC. -/
theorem c3_witness :
    pendingPickupOrder.totalAmount.amount =
      wrap64 (([burgerItem, friesItem].map fun i => i.PricePerItem.amount * i.Quantity).sum) ∧
    pendingPickupOrder.totalAmount.currency = "BTC" :=
  ⟨(c3_total_wrapped_sum ⟨1⟩ ⟨2⟩ [burgerItem, friesItem] DeliveryMethodPickup none ⟨3⟩ 0
      pendingPickupOrder (by decide)).1,
   (c3_total_wrapped_sum ⟨1⟩ ⟨2⟩ [burgerItem, friesItem] DeliveryMethodPickup none ⟨3⟩ 0
      pendingPickupOrder (by decide)).2.1⟩

/-- C3 counterexample: an item list the factory accepts (one item, price 2^62
sats, quantity 2) whose mathematical sum of price times quantity is 2^63; the
constructed total wraps to -2^63 and is not equal to that sum, refuting the
claim as stated. -/
theorem c3_total_overflow_cex :
    factoryTotal (NewOrder ⟨1⟩ ⟨2⟩ [hugeItem] DeliveryMethodPickup none ⟨3⟩ 0) =
      some (-9223372036854775808) ∧
    ([hugeItem].map fun i => i.PricePerItem.amount * i.Quantity).sum =
      9223372036854775808 ∧
    ((-9223372036854775808 : Int) ≠ 9223372036854775808) := by
  refine ⟨by decide, by decide, by decide⟩

/-- C4: DispatchForDelivery fails with the delivery-rule error and returns
the order unchanged whenever the delivery method is pickup — the check
precedes the transition-table lookup, so this holds in every status,
including READY; on a delivery order in READY it succeeds and returns exactly
one event. -/
theorem c4_dispatch_delivery_rule :
    (∀ (o : Order) (driverID : UUID) (now : Int),
       o.deliveryMethod = DeliveryMethodPickup →
       o.DispatchForDelivery driverID now =
         (Except.error OrderError.ErrCanOnlyDispatchDeliveryOrders, o)) ∧
    (∀ (o : Order) (driverID : UUID) (now : Int),
       o.deliveryMethod = DeliveryMethodDelivery → o.status = OrderStatus.Ready →
       ∃ ev, (o.DispatchForDelivery driverID now).1 = Except.ok [ev]) := by
  constructor
  · intro o driverID now h
    simp [Order.DispatchForDelivery, h, DeliveryMethodPickup, DeliveryMethodDelivery]
  · intro o driverID now h hs
    have hc : o.canTransitionTo OrderStatus.OutForDelivery = true :=
      canTransitionTo_eq_true (by rw [hs]; simp [validTransitions])
    exact ⟨DomainEvent.OrderOutForDeliveryEvent o.id o.customerID driverID o.deliveryAddress now,
      by simp [Order.DispatchForDelivery, Order.recordStatusChange, h, hc]⟩

/-- C4 witness: dispatching the READY pickup fixture fails with the
delivery-rule error and leaves it unchanged; dispatching the READY delivery
fixture succeeds. -/
theorem c4_witness :
    readyPickupOrder.DispatchForDelivery ⟨9⟩ 7 =
      (Except.error OrderError.ErrCanOnlyDispatchDeliveryOrders, readyPickupOrder) ∧
    ∃ ev, (readyDeliveryOrder.DispatchForDelivery ⟨9⟩ 7).1 = Except.ok [ev] :=
  ⟨c4_dispatch_delivery_rule.1 readyPickupOrder ⟨9⟩ 7 rfl,
   c4_dispatch_delivery_rule.2 readyDeliveryOrder ⟨9⟩ 7 rfl rfl⟩

/-- C5 (amended): for every now and every estimatedMinutes with
|estimatedMinutes| ≤ 100,000,000 (so that the int64 duration arithmetic
cannot overflow), the constructed window is
start = now + (estimatedMinutes - buffer) minutes and
end = now + (estimatedMinutes + buffer) minutes with
buffer = max(5, estimatedMinutes / 10) (Go integer division); in particular
for estimatedMinutes = 30 the window is exactly 10 minutes wide and centered
on now + 30 minutes. -/
theorem c5_timewindow_formula (from_ est : Int) (h1 : -100000000 ≤ est)
    (h2 : est ≤ 100000000) :
    NewTimeWindow from_ est =
      { StartTime := from_ + (est - max 5 (Int.tdiv est 10)) * timeMinute
        EndTime := from_ + (est + max 5 (Int.tdiv est 10)) * timeMinute } ∧
    (NewTimeWindow from_ 30).EndTime - (NewTimeWindow from_ 30).StartTime = 10 * timeMinute ∧
    (NewTimeWindow from_ 30).StartTime + (NewTimeWindow from_ 30).EndTime =
      2 * (from_ + 30 * timeMinute) := by
  have ht : Int.tdiv 30 10 = 3 := rfl
  have h30 : NewTimeWindow from_ 30 =
      { StartTime := from_ + 1500000000000, EndTime := from_ + 2100000000000 } := by
    show TimeWindow.mk _ _ = _
    rw [TimeWindow.mk.injEq]
    simp only [NewTimeWindow, ht, wrap64, timeMinute]
    norm_num
  have hq := tdivTenBounds est h1 h2
  have hbuf : (if Int.tdiv est 10 < 5 then 5 else Int.tdiv est 10) =
      max 5 (Int.tdiv est 10) := by
    omega
  have hs1 : wrap64 (est - max 5 (Int.tdiv est 10)) = est - max 5 (Int.tdiv est 10) :=
    wrap64_eq_self (by omega) (by omega)
  have he1 : wrap64 (est + max 5 (Int.tdiv est 10)) = est + max 5 (Int.tdiv est 10) :=
    wrap64_eq_self (by omega) (by omega)
  have hs2 : wrap64 ((est - max 5 (Int.tdiv est 10)) * 60000000000) =
      (est - max 5 (Int.tdiv est 10)) * 60000000000 :=
    wrap64_eq_self (by omega) (by omega)
  have he2 : wrap64 ((est + max 5 (Int.tdiv est 10)) * 60000000000) =
      (est + max 5 (Int.tdiv est 10)) * 60000000000 :=
    wrap64_eq_self (by omega) (by omega)
  refine ⟨?_, by rw [h30]; simp only [timeMinute]; omega,
    by rw [h30]; simp only [timeMinute]; omega⟩
  show TimeWindow.mk _ _ = _
  rw [TimeWindow.mk.injEq]
  rw [hbuf]
  simp only [timeMinute]
  rw [hs1, he1, hs2, he2]
  exact ⟨rfl, rfl⟩

/-- C5 witness: the window for estimate 30 at instant 0. -/
theorem c5_witness :
    NewTimeWindow 0 30 =
      { StartTime := 0 + (30 - max 5 (Int.tdiv 30 10)) * timeMinute
        EndTime := 0 + (30 + max 5 (Int.tdiv 30 10)) * timeMinute } ∧
    (NewTimeWindow 0 30).EndTime - (NewTimeWindow 0 30).StartTime = 10 * timeMinute ∧
    (NewTimeWindow 0 30).StartTime + (NewTimeWindow 0 30).EndTime =
      2 * (0 + 30 * timeMinute) :=
  c5_timewindow_formula 0 30 (by norm_num) (by norm_num)

/-- C5 counterexample: at estimatedMinutes = 2^61 the int64 multiplication by
time.Minute wraps, so the end instant is not now + (est + buffer) minutes,
refuting the claim's universal quantification over estimatedMinutes. -/
theorem c5_overflow_cex :
    (NewTimeWindow 0 2305843009213693952).EndTime = -12000000000 ∧
    (NewTimeWindow 0 2305843009213693952).EndTime ≠
      0 + (2305843009213693952 + max 5 (Int.tdiv 2305843009213693952 10)) * timeMinute := by
  refine ⟨by decide, by decide⟩

/-- C6 (amended): 500 sats renders "500 sats", 100000 renders "1.000 mBTC",
and 10000000 renders "0.10000000 BTC"; every amount below 100,000 renders as
the raw integer satoshi count; for amounts at or above the thresholds the
printed figure is the float64 approximation of a/10^8 (resp. a/10^5), which
agrees with the exact quotient only while the float is precise enough; and
Add and Multiply are exact integer operations whenever the mathematical
result fits in int64 (they wrap modulo 2^64 otherwise, with no rounding). -/
theorem c6_money_rendering_arith (a b q : Int) :
    Money.String (NewMoney 500) = "500 sats" ∧
    Money.String (NewMoney 100000) = "1.000 mBTC" ∧
    Money.String (NewMoney 10000000) = "0.10000000 BTC" ∧
    (∀ (c : String) (x : Int), x < 100000 →
      Money.String { amount := x, currency := c } = toString x ++ " sats") ∧
    (-9223372036854775808 ≤ a + b → a + b < 9223372036854775808 →
      (NewMoney a).Add (NewMoney b) = some (NewMoney (a + b))) ∧
    (-9223372036854775808 ≤ a * q → a * q < 9223372036854775808 →
      (NewMoney a).Multiply q = NewMoney (a * q)) := by
  refine ⟨by decide, by decide, by decide, ?_, ?_, ?_⟩
  · intro c x hx
    unfold Money.String
    dsimp only
    rw [if_neg (by omega), if_neg (by omega)]
  · intro hl hr
    unfold Money.Add NewMoney
    rw [if_neg (by simp)]
    rw [wrap64_eq_self hl hr]
  · intro hl hr
    unfold Money.Multiply NewMoney
    rw [wrap64_eq_self hl hr]

/-- C6 witness: the three example renderings plus exact addition and
multiplication at in-range values. -/
theorem c6_witness :
    Money.String (NewMoney 500) = "500 sats" ∧
    (NewMoney 25000).Add (NewMoney 10000) = some (NewMoney 35000) ∧
    (NewMoney 25000).Multiply 2 = NewMoney 50000 :=
  ⟨(c6_money_rendering_arith 0 0 0).1,
   by have := (c6_money_rendering_arith 25000 10000 0).2.2.2.2.1 (by norm_num) (by norm_num)
      simpa using this,
   by have := (c6_money_rendering_arith 25000 0 2).2.2.2.2.2 (by norm_num) (by norm_num)
      simpa using this⟩

/-- C6 counterexample: at a = 10^18 + 1 satoshis (which is at least 10^7),
the float64 pipeline loses the final digit: the code renders
"10000000000.00000000 BTC" while 8 decimal places of the exact a/10^8 are
"10000000000.00000001 BTC", refuting the claim's universal rendering rule. -/
theorem c6_float_rendering_cex :
    (1000000000000000001 : Int) ≥ 10000000 ∧
    Money.String (NewMoney 1000000000000000001) = "10000000000.00000000 BTC" ∧
    renderSpecBTC 1000000000000000001 = "10000000000.00000001 BTC" ∧
    Money.String (NewMoney 1000000000000000001) ≠ renderSpecBTC 1000000000000000001 := by
  refine ⟨by norm_num, by decide, by decide, by decide⟩

/-- C7 (amended): address construction fails exactly when one of street,
city, state, or postal code is the empty string as given — the check runs
BEFORE trimming, so whitespace-only fields are accepted (and stored trimmed,
possibly as empty strings); when the country argument is empty the
constructed country is the default "USA". -/
theorem c7_address_validation (street city state postalCode country : String) :
    ((∃ msg, NewAddress street city state postalCode country = Except.error msg) ↔
      (street = "" ∨ city = "" ∨ state = "" ∨ postalCode = "")) ∧
    (country = "" → street ≠ "" → city ≠ "" → state ≠ "" → postalCode ≠ "" →
      NewAddress street city state postalCode country =
        Except.ok { street := trimSpace street, city := trimSpace city,
                    state := trimSpace state, postalCode := trimSpace postalCode,
                    country := "USA", unit := "" }) := by
  have hUSA : trimSpace "USA" = "USA" := by decide
  constructor
  · unfold NewAddress
    split_ifs with ha hb hc hd
    · simp [ha]
    · simp [hb]
    · simp [hc]
    · simp [hd]
    · simp [ha, hb, hc, hd]
  · intro hco ha hb hc hd
    unfold NewAddress
    subst hco
    simp only [if_neg ha, if_neg hb, if_neg hc, if_neg hd, if_true]
    rw [hUSA]

/-- C7 witness: an address with empty street is rejected; a valid address
with empty country gets the default country. -/
theorem c7_witness :
    ((∃ msg, NewAddress "" "Springfield" "IL" "62704" "USA" = Except.error msg) ↔
      ("" = "" ∨ "Springfield" = "" ∨ "IL" = "" ∨ "62704" = "")) ∧
    NewAddress "123 Main St" "San Francisco" "CA" "94102" "" =
      Except.ok { street := trimSpace "123 Main St", city := trimSpace "San Francisco",
                  state := trimSpace "CA", postalCode := trimSpace "94102",
                  country := "USA", unit := "" } :=
  ⟨(c7_address_validation "" "Springfield" "IL" "62704" "USA").1,
   (c7_address_validation "123 Main St" "San Francisco" "CA" "94102" "").2 rfl
     (by decide) (by decide) (by decide) (by decide)⟩

/-- C7 counterexample: a whitespace-only street (which is empty after
trimming) is ACCEPTED by the constructor, and stored as the empty string —
refuting the claim that such a field is rejected. -/
theorem c7_whitespace_accepted_cex :
    NewAddress " " "Springfield" "IL" "62704" "" =
      Except.ok { street := "", city := "Springfield", state := "IL",
                  postalCode := "62704", country := "USA", unit := "" } ∧
    trimSpace " " = "" := by
  refine ⟨by decide, by decide⟩

/-- C8: assuming the package invariant that every item price carries the BTC
currency tag (the only tag the Money constructors can produce), the factory
fails exactly when one of its validation rules is violated; with otherwise
valid inputs, a delivery order with no address fails with the
address-required error, and a pickup order with an address succeeds, storing
the (immaterial) address on a PENDING order with the given items. -/
theorem c8_factory_validation (customerID merchantID : UUID) (items : List OrderItem)
    (dm : DeliveryMethod) (addr : Option Address) (id : UUID) (now : Int)
    (hBTC : ∀ i ∈ items, i.PricePerItem.currency = "BTC") :
    ((∃ e, NewOrder customerID merchantID items dm addr id now = some (Except.error e)) ↔
      validationViolated customerID merchantID items dm addr) ∧
    (¬ validationViolated customerID merchantID items dm addr →
      ∃ o, NewOrder customerID merchantID items dm addr id now = some (Except.ok o)) ∧
    (customerID ≠ UUID.nil → merchantID ≠ UUID.nil → items ≠ [] →
      dm = DeliveryMethodDelivery → addr = none →
      NewOrder customerID merchantID items dm addr id now =
        some (Except.error OrderError.ErrDeliveryAddressRequired)) ∧
    (∀ a, dm = DeliveryMethodPickup → addr = some a →
      ¬ validationViolated customerID merchantID items dm addr →
      ∃ o, NewOrder customerID merchantID items dm addr id now = some (Except.ok o) ∧
        o.deliveryAddress = some a ∧ o.status = OrderStatus.Pending ∧ o.items = items) := by
  unfold NewOrder
  split_ifs with h1 h2 h3 h4 h5
  · simp [validationViolated, h1]
  · simp [validationViolated, h2]
  · simp [validationViolated, List.length_eq_zero.mp h3]
  · have h4' : dm.IsValid = false := by
      revert h4
      cases dm.IsValid <;> simp
    simp [validationViolated, h4']
    intro _ _ _ hdm
    rw [hdm] at h4'
    simp [DeliveryMethod.IsValid, DeliveryMethodPickup, DeliveryMethodDelivery] at h4'
  · constructor
    · simp [validationViolated, h5.1, h5.2]
    · refine ⟨?_, ?_, ?_⟩
      · intro hnv
        exact absurd (Or.inr (Or.inr (Or.inr (Or.inr (Or.inl h5))))) hnv
      · intro _ _ _ _ _
        rfl
      · intro a _ haddr _
        rw [haddr] at h5
        simp at h5
  · have h3' : items ≠ [] := fun he => h3 (by rw [he]; rfl)
    have h4' : dm.IsValid = true := by
      revert h4
      cases dm.IsValid <;> simp
    by_cases hqv : ∃ i ∈ items, i.Quantity ≤ 0
    · rw [newOrderTotalLoop_err items (NewMoney 0) hBTC rfl hqv]
      have hv : validationViolated customerID merchantID items dm addr :=
        Or.inr (Or.inr (Or.inr (Or.inr (Or.inr hqv))))
      refine ⟨?_, ?_, ?_, ?_⟩
      · simp [hv]
      · intro hnv
        exact absurd hv hnv
      · intro _ _ _ hdm haddr
        exact absurd ⟨hdm, haddr⟩ h5
      · intro a _ _ hnv
        exact absurd hv hnv
    · push_neg at hqv
      obtain ⟨t, hloop⟩ := newOrderTotalLoop_exists_ok items (NewMoney 0) hBTC rfl
        (fun i hi => by have := hqv i hi; omega)
      rw [hloop]
      have hnv : ¬ validationViolated customerID merchantID items dm addr := by
        intro hv
        rcases hv with hv | hv | hv | hv | hv | hv
        · exact h1 hv
        · exact h2 hv
        · exact h3' hv
        · rw [h4'] at hv
          cases hv
        · exact h5 hv
        · obtain ⟨i, hi, hiq⟩ := hv
          have := hqv i hi
          omega
      refine ⟨?_, ?_, ?_, ?_⟩
      · constructor
        · rintro ⟨e, he⟩
          simp at he
        · intro hv
          exact absurd hv hnv
      · intro _
        exact ⟨_, rfl⟩
      · intro _ _ _ hdm haddr
        exact absurd ⟨hdm, haddr⟩ h5
      · intro a _ haddr _
        exact ⟨_, rfl, by simp [haddr], rfl, rfl⟩

/-- C8 witness: a pickup order with a supplied address is created (PENDING,
address stored), and a delivery order without an address fails with the
address-required error. -/
theorem c8_witness :
    (∃ o, NewOrder ⟨1⟩ ⟨2⟩ [burgerItem] DeliveryMethodPickup (some sampleAddress) ⟨3⟩ 0 =
        some (Except.ok o) ∧ o.deliveryAddress = some sampleAddress ∧
        o.status = OrderStatus.Pending ∧ o.items = [burgerItem]) ∧
    NewOrder ⟨1⟩ ⟨2⟩ [burgerItem] DeliveryMethodDelivery none ⟨3⟩ 0 =
      some (Except.error OrderError.ErrDeliveryAddressRequired) :=
  ⟨(c8_factory_validation ⟨1⟩ ⟨2⟩ [burgerItem] DeliveryMethodPickup (some sampleAddress)
      ⟨3⟩ 0 (by decide)).2.2.2 sampleAddress rfl rfl (by decide),
   (c8_factory_validation ⟨1⟩ ⟨2⟩ [burgerItem] DeliveryMethodDelivery none
      ⟨3⟩ 0 (by decide)).2.2.1 (by decide) (by decide) (by decide) rfl rfl⟩

/-- C9: for the fire-and-forget in-process broadcaster, publish always
returns success to the publisher — any bus, any event — never surfacing a
handler error; registering a list of handlers on a topic and publishing one
event with that topic spawns exactly one invocation per registered handler,
in registration order; and publishing on the fresh bus (zero subscribers)
succeeds with no dispatch. -/
theorem c9_fire_and_forget_publish (hs : List Handler) (t : String) (event : BusEvent)
    (h : event.Topic = t) :
    (∀ b : InMemoryEventBus, (b.Publish event).1 = Except.ok ()) ∧
    (subscribeAll NewInMemoryEventBus t hs).Publish event =
      (Except.ok (), hs.map fun f => f event) ∧
    NewInMemoryEventBus.Publish event = (Except.ok (), []) := by
  refine ⟨?_, ?_, ?_⟩
  · intro b
    unfold InMemoryEventBus.Publish
    cases b.subscribers event.Topic <;> rfl
  · have hsub : (subscribeAll NewInMemoryEventBus t hs).subscribers t =
        (if hs.isEmpty then none else some hs) := by
      rw [subscribeAll_subscribers]
      cases hs <;> simp [NewInMemoryEventBus]
    simp only [InMemoryEventBus.Publish, h]
    rw [hsub]
    cases hs <;> simp
  · simp [InMemoryEventBus.Publish, NewInMemoryEventBus]

/-- C9 witness: two handlers (one failing) registered on a topic are both
dispatched exactly once; the publisher still gets success; and the fresh bus
delivers to nobody, also successfully. -/
theorem c9_witness :
    (∀ b : InMemoryEventBus, (b.Publish ⟨"order.placed", "payload"⟩).1 = Except.ok ()) ∧
    (subscribeAll NewInMemoryEventBus "order.placed" [failingHandler, okHandler]).Publish
        ⟨"order.placed", "payload"⟩ =
      (Except.ok (), [failingHandler, okHandler].map fun f => f ⟨"order.placed", "payload"⟩) ∧
    NewInMemoryEventBus.Publish ⟨"order.placed", "payload"⟩ = (Except.ok (), []) :=
  c9_fire_and_forget_publish [failingHandler, okHandler] "order.placed"
    ⟨"order.placed", "payload"⟩ rfl

/-- C10: for the external-broker bridge, publish returns the wrapped marshal
error when serialization fails, and otherwise hands the payload to the broker
under the event's topic and returns the broker's outcome (so it succeeds iff
both steps do); subscribe fails with the fixed capability error for every
topic and handler (the bridge holds no registry it could modify). -/
theorem c10_redis_bridge (b : RedisEventBus) (event : BusEvent)
    (topic : String) (handler : Handler) :
    (∀ msg, b.marshal event = Except.error msg →
        b.Publish event = Except.error ("failed to marshal event: " ++ msg)) ∧
    (∀ payload, b.marshal event = Except.ok payload →
        b.Publish event = b.clientPublish event.Topic payload) ∧
    (b.Publish event = Except.ok () ↔
      ∃ payload, b.marshal event = Except.ok payload ∧
        b.clientPublish event.Topic payload = Except.ok ()) ∧
    b.Subscribe topic handler = Except.error
      "Subscribe is not implemented for RedisEventBus; subscriptions should be handled by a dedicated worker process" := by
  refine ⟨?_, ?_, ?_, rfl⟩
  · intro msg hm
    simp [RedisEventBus.Publish, hm]
  · intro payload hm
    simp [RedisEventBus.Publish, hm]
  · cases hm : b.marshal event with
    | error msg => simp [RedisEventBus.Publish, hm]
    | ok payload => simp [RedisEventBus.Publish, hm]

/-- C10 witness: a bridge whose marshaller fails reports the wrapped marshal
error from publish, and its subscribe returns the capability error. -/
theorem c10_witness :
    failingMarshalBus.Publish ⟨"order.placed", "x"⟩ =
      Except.error ("failed to marshal event: " ++ "unsupported type") ∧
    failingMarshalBus.Subscribe "order.placed" okHandler = Except.error
      "Subscribe is not implemented for RedisEventBus; subscriptions should be handled by a dedicated worker process" :=
  ⟨(c10_redis_bridge failingMarshalBus ⟨"order.placed", "x"⟩ "order.placed" okHandler).1
      "unsupported type" rfl,
   (c10_redis_bridge failingMarshalBus ⟨"order.placed", "x"⟩ "order.placed" okHandler).2.2.2⟩

end Minimart
